import Mathlib

/-!
# Verification of the SnapSentry snapshot scheduling & retention engine

Shallow embedding of `src/openstack_snapsentry` (models/frequency.py,
models/metadata.py, snapshot.py, orchestrator.py) into Lean 4.

Conventions of the embedding:
* An `Instant` (the `whenever.Instant` type) is modelled as `Int`: seconds
  since the Unix epoch.
* A `whenever.ZonedDateTime` is modelled as a pair of the *local naive*
  timestamp (seconds since epoch, read off the wall clock as if it were UTC)
  together with the IANA zone name.  A timezone database is an abstract
  structure mapping zone names to offset functions; only the fact that the
  `UTC` zone has offset 0 is fixed.  This mirrors the library behaviour the
  source relies on: `PlainDateTime.assume_tz(tz)` attaches a zone to a naive
  timestamp, `to_tz("UTC")` converts to the instant, calendar arithmetic
  (`add(days=...)`, `add(months=...)`, `replace(day=...)`) acts on the local
  calendar representation with whenever's day-clamping month arithmetic.
* Python's floor division `//` and floor modulo `%` on integers are
  `Int.fdiv` / `Int.fmod`.
* Gregorian calendar conversions (`datetime.date`, `calendar.monthrange`,
  `datetime.weekday`) use the standard civil-from-days / days-from-civil
  algorithms over `Int`.
* `pydantic` model construction is fallible: constructing a model while a
  required field (one declared without default) is missing raises a
  `ValidationError`.  Fallible constructions and decoding are embedded with
  `Except String`.
* Human-readable reason/log strings keep the source's fixed message text;
  interpolated values are elided where no behaviour depends on them.
-/

deriving instance DecidableEq for Except

namespace SnapSentry

/-! ## Gregorian calendar arithmetic (datetime / calendar modules) -/

def isLeapYear (y : Int) : Bool :=
  (Int.fmod y 4 = 0 && Int.fmod y 100 != 0) || Int.fmod y 400 = 0

/-- `calendar.monthrange(y, m)[1]`: number of days in month `m` of year `y`. -/
def daysInMonth (y m : Int) : Int :=
  if m = 2 then (if isLeapYear y then 29 else 28)
  else if m = 4 || m = 6 || m = 9 || m = 11 then 30
  else 31

/-- Days since the Unix epoch of the civil date `y-m-d` (Howard Hinnant's
`days_from_civil` algorithm, the standard conversion used by `datetime`). -/
def daysFromCivil (y m d : Int) : Int :=
  let y' := if m ≤ 2 then y - 1 else y
  let era := Int.fdiv y' 400
  let yoe := y' - era * 400
  let mp := Int.fmod (m + 9) 12
  let doy := Int.fdiv (153 * mp + 2) 5 + d - 1
  let doe := yoe * 365 + Int.fdiv yoe 4 - Int.fdiv yoe 100 + doy
  era * 146097 + doe - 719468

/-- Civil date `(y, m, d)` of a count of days since the Unix epoch
(Howard Hinnant's `civil_from_days` algorithm). -/
def civilFromDays (z : Int) : Int × Int × Int :=
  let z' := z + 719468
  let era := Int.fdiv z' 146097
  let doe := z' - era * 146097
  let yoe := Int.fdiv (doe - Int.fdiv doe 1460 + Int.fdiv doe 36524 - Int.fdiv doe 146096) 365
  let y := yoe + era * 400
  let doy := doe - (365 * yoe + Int.fdiv yoe 4 - Int.fdiv yoe 100)
  let mp := Int.fdiv (5 * doy + 2) 153
  let d := doy - Int.fdiv (153 * mp + 2) 5 + 1
  let m := mp + (if mp < 10 then 3 else -9)
  (if m ≤ 2 then y + 1 else y, m, d)

/-- The instant (epoch seconds) of a UTC civil date and time of day.
Convenience for stating concrete scenarios. -/
def mkUTC (y m d h mi s : Int) : Int :=
  daysFromCivil y m d * 86400 + h * 3600 + mi * 60 + s

/-- `calendar.day_name[n].lower()` for `n = datetime.weekday()` (Monday = 0). -/
def dayNames : List String :=
  ["monday", "tuesday", "wednesday", "thursday", "friday", "saturday", "sunday"]

/-- Lower-cased weekday name of a count of days since the epoch
(1970-01-01 was a Thursday, `weekday() = 3`). -/
def weekdayName (days : Int) : String :=
  dayNames.getD (Int.fmod (days + 3) 7).toNat ""

/-! ## The `whenever` time model -/

/-- Abstract IANA timezone database.  `offsetAtLocal tz t` is the UTC offset
(seconds) the zone assigns to the local naive timestamp `t` (the direction
used by `assume_tz`), `offsetAtInstant tz i` the offset in force at instant
`i` (the direction used when reading a local calendar off an instant).  The
`UTC` zone always has offset 0 and is always a recognised zone name. -/
structure TZDatabase where
  offsetAtLocal : String → Int → Int
  offsetAtInstant : String → Int → Int
  valid : String → Bool
  utc_local : ∀ t, offsetAtLocal "UTC" t = 0
  utc_instant : ∀ i, offsetAtInstant "UTC" i = 0
  utc_valid : valid "UTC" = true

/-- The trivial database recognising only `UTC`; used for concrete scenarios. -/
def utcOnly : TZDatabase where
  offsetAtLocal := fun _ _ => 0
  offsetAtInstant := fun _ _ => 0
  valid := fun s => s = "UTC"
  utc_local := fun _ => rfl
  utc_instant := fun _ => rfl
  utc_valid := by simp

/-- A toy database with one DST-style zone `Toyland` whose offset jumps from
0 to +3600 seconds at local epoch 0; used to exhibit timezone-aware
calendar-day arithmetic. -/
def dstToy : TZDatabase where
  offsetAtLocal := fun s t => if s = "Toyland" ∧ 0 ≤ t then 3600 else 0
  offsetAtInstant := fun s i => if s = "Toyland" ∧ 0 ≤ i then 3600 else 0
  valid := fun s => s = "UTC" || s = "Toyland"
  utc_local := fun t => by simp
  utc_instant := fun i => by simp
  utc_valid := by simp

/-- `whenever.ZonedDateTime`: a local naive timestamp paired with a zone. -/
structure ZonedDateTime where
  localSeconds : Int
  tz : String
deriving DecidableEq

/-- The instant a `ZonedDateTime` denotes. -/
def toInstant (db : TZDatabase) (z : ZonedDateTime) : Int :=
  z.localSeconds - db.offsetAtLocal z.tz z.localSeconds

/-- `PlainDateTime.assume_tz(tz)`. -/
def assumeTz (naive : Int) (tz : String) : ZonedDateTime :=
  ⟨naive, tz⟩

/-- `ZonedDateTime.to_tz("UTC")`. -/
def toUTC (db : TZDatabase) (z : ZonedDateTime) : ZonedDateTime :=
  ⟨toInstant db z, "UTC"⟩

/-- `ZonedDateTime.add(days=n)`: calendar-day addition, preserving the local
wall-clock time. -/
def ZonedDateTime.addDays (z : ZonedDateTime) (n : Int) : ZonedDateTime :=
  ⟨z.localSeconds + n * 86400, z.tz⟩

/-- `ZonedDateTime.add(months=1)`: advance the local calendar one month,
clamping the day-of-month to the target month's length (whenever's
constrain semantics, e.g. Jan 31 + 1 month = last day of Feb). -/
def ZonedDateTime.addOneMonth (z : ZonedDateTime) : ZonedDateTime :=
  let days := Int.fdiv z.localSeconds 86400
  let sod := Int.fmod z.localSeconds 86400
  let c := civilFromDays days
  let y := c.1
  let m := c.2.1
  let d := c.2.2
  let y2 := if m = 12 then y + 1 else y
  let m2 := if m = 12 then 1 else m + 1
  let d2 := min d (daysInMonth y2 m2)
  ⟨daysFromCivil y2 m2 d2 * 86400 + sod, z.tz⟩

/-- `ZonedDateTime.replace(day=day)`: keep year, month and time of day,
replace the day-of-month.  Raises `ValueError` (here: `none`) when `day`
does not exist in that month. -/
def ZonedDateTime.replaceDay (z : ZonedDateTime) (day : Int) : Option ZonedDateTime :=
  let days := Int.fdiv z.localSeconds 86400
  let sod := Int.fmod z.localSeconds 86400
  let c := civilFromDays days
  if 1 ≤ day ∧ day ≤ daysInMonth c.1 c.2.1 then
    some ⟨daysFromCivil c.1 c.2.1 day * 86400 + sod, z.tz⟩
  else
    none

/-- The day-of-month of a `ZonedDateTime`'s local calendar date. -/
def ZonedDateTime.dayOfMonth (z : ZonedDateTime) : Int :=
  (civilFromDays (Int.fdiv z.localSeconds 86400)).2.2

/-! ## String codec primitives

Decoding mirrors pydantic v2 lax validation of string tag values; encoding
mirrors Python `str()` on the field values (`dump_flat_str_dict.to_str`). -/

def isDigitChar (c : Char) : Bool :=
  48 ≤ c.toNat && c.toNat ≤ 57

def digitChar (d : Nat) : Char :=
  Char.ofNat (48 + d)

/-- Decimal digits, fuel-based so that the kernel can evaluate it. -/
def natDigitsAux : Nat → Nat → List Char
  | 0, _ => []
  | fuel + 1, n =>
    if n < 10 then [digitChar n]
    else natDigitsAux fuel (n / 10) ++ [digitChar (n % 10)]

/-- Decimal digits of a natural number, most significant first. -/
def natDigits (n : Nat) : List Char :=
  natDigitsAux (n + 1) n

/-- Python `str()` of a non-negative integer. -/
def natToDecimal (n : Nat) : String :=
  String.mk (natDigits n)

/-- Python `str()` of an integer. -/
def intToDecimal (i : Int) : String :=
  if i < 0 then "-" ++ natToDecimal (-i).toNat else natToDecimal i.toNat

/-- Parse an unsigned decimal numeral (pydantic int validation core). -/
def parseNatChars (cs : List Char) : Option Nat :=
  if cs = [] then none
  else if cs.all isDigitChar then
    some (cs.foldl (fun a c => a * 10 + (c.toNat - 48)) 0)
  else none

def parseIntChars : List Char → Option Int
  | [] => none
  | c :: rest =>
    if c = '-' then (parseNatChars rest).map (fun n : Nat => -(n : Int))
    else (parseNatChars (c :: rest)).map (fun n : Nat => (n : Int))

/-- pydantic lax `int` validation of a string tag value: an optional leading
minus sign followed by a decimal numeral. -/
def parseIntPy (s : String) : Option Int :=
  parseIntChars s.data

/-- ASCII lower-casing of a character. -/
def lowerChar (c : Char) : Char :=
  if 65 ≤ c.toNat ∧ c.toNat ≤ 90 then Char.ofNat (c.toNat + 32) else c

/-- ASCII lower-casing of a string. -/
def lowerStr (s : String) : String :=
  String.mk (s.data.map lowerChar)

/-- pydantic lax `bool` validation of a string tag value: the recognised
truthy / falsy spellings, case-insensitive; anything else is a
`ValidationError`. -/
def parseBoolPy (s : String) : Option Bool :=
  let l := lowerStr s
  if l = "true" || l = "t" || l = "yes" || l = "y" || l = "on" || l = "1" then some true
  else if l = "false" || l = "f" || l = "no" || l = "n" || l = "off" || l = "0" then some false
  else none

/-- Split a character list at `':'` separators (`HH:MM:SS` components). -/
def splitColon : List Char → List (List Char)
  | [] => [[]]
  | c :: rest =>
    match splitColon rest with
    | [] => [[]]
    | g :: gs => if c = ':' then [] :: g :: gs else (c :: g) :: gs

/-- The `HH:MM` / `HH:MM:SS` components of a time string, range-checked. -/
def timeFromParts : List (List Char) → Option Nat
  | [h, m] =>
    match parseNatChars h, parseNatChars m with
    | some hh, some mm =>
      if hh < 24 ∧ mm < 60 then some (hh * 3600 + mm * 60) else none
    | _, _ => none
  | [h, m, sc] =>
    match parseNatChars h, parseNatChars m, parseNatChars sc with
    | some hh, some mm, some ss =>
      if hh < 24 ∧ mm < 60 ∧ ss < 60 then some (hh * 3600 + mm * 60 + ss) else none
    | _, _, _ => none
  | _ => none

/-- pydantic lax `time` validation of a string tag value: `HH:MM` or
`HH:MM:SS`, range-checked.  The result is the number of seconds after
midnight. -/
def parseTimePy (s : String) : Option Nat :=
  timeFromParts (splitColon s.data)

/-- Two-digit zero-padded field of Python `str(datetime.time)`. -/
def pad2 (n : Nat) : List Char :=
  if n < 10 then ['0', digitChar n] else natDigits n

/-- Python `str()` of a `datetime.time` holding `t` seconds after midnight:
`"HH:MM:SS"`. -/
def timeToStr (t : Nat) : String :=
  String.mk (pad2 (t / 3600) ++ ':' :: (pad2 (t % 3600 / 60) ++ ':' :: pad2 (t % 60)))

/-- Python `str()` of a `bool` as emitted by `dump_flat_str_dict.to_str`. -/
def boolToStr (b : Bool) : String :=
  if b then "true" else "false"

def isSpaceChar (c : Char) : Bool :=
  c = ' ' || c = '\t' || c = '\n' || c = '\r'

def dropLeadingSpace : List Char -> List Char
  | [] => []
  | c :: rest => if isSpaceChar c then dropLeadingSpace rest else c :: rest

/-- pydantic `str_strip_whitespace`: strip leading and trailing whitespace. -/
def strTrim (s : String) : String :=
  String.mk ((dropLeadingSpace (dropLeadingSpace s.data).reverse).reverse)

/-! ## Policy model (models/frequency.py) -/

/-- `DailySnapshotSchedule`: the daily recurrence policy.  `start_time` is
the time of day in seconds after midnight; `retention_type` is the literal
`"time"` field. -/
structure DailySnapshotSchedule where
  is_enabled : Bool := false
  start_time : Nat := 23 * 3600 + 29 * 60
  timezone : String := "UTC"
  retention_type : String := "time"
  retention_days : Int := 7
deriving DecidableEq

/-- `WeeklySnapshotSchedule`: the weekly recurrence policy. -/
structure WeeklySnapshotSchedule where
  is_enabled : Bool := false
  start_time : Nat := 23 * 3600 + 29 * 60
  start_day : String := "sunday"
  timezone : String := "UTC"
  retention_type : String := "time"
  retention_days : Int := 30
deriving DecidableEq

/-- `MonthlySnapshotSchedule`: the monthly recurrence policy. -/
structure MonthlySnapshotSchedule where
  is_enabled : Bool := false
  start_time : Nat := 23 * 3600 + 29 * 60
  start_date : Int := 1
  timezone : String := "UTC"
  retention_type : String := "time"
  retention_days : Int := 90
deriving DecidableEq

/-- `SnapshotSchedule`: the due decision record.  In the source
`scheduled_time_utc` and `scheduled_time_local` are required pydantic
fields, `current_time_utc` has a default factory and `reason` defaults to
`None`. -/
structure SnapshotSchedule where
  is_due : Bool
  scheduled_time_utc : ZonedDateTime
  scheduled_time_local : ZonedDateTime
  current_time_utc : Int
  reason : Option String
deriving DecidableEq

/-- pydantic construction of `SnapshotSchedule`: the two scheduled-time
fields are required (declared without a default), so constructing the model
while either is absent raises a `ValidationError`. -/
def SnapshotSchedule.constructPy (is_due : Bool) (utc : Option ZonedDateTime)
    (loc : Option ZonedDateTime) (now : Int) (reason : Option String) :
    Except String SnapshotSchedule :=
  match utc, loc with
  | some u, some l => .ok ⟨is_due, u, l, now, reason⟩
  | _, _ =>
    .error "ValidationError: field required: scheduled_time_utc, scheduled_time_local"

/-- `BaseSnapshotPolicy.compute_scheduled_times`: combine the UTC calendar
date of `now` with the policy's `start_time`, attach the policy timezone,
and convert to UTC.  Returns `(utc_time, local_time)`. -/
def compute_scheduled_times (db : TZDatabase) (start_time : Nat) (tz : String)
    (now : Int) : ZonedDateTime × ZonedDateTime :=
  let today_midnight := now - Int.fmod now 86400
  let scheduled_timeframe := today_midnight + (start_time : Int)
  let local_time := assumeTz scheduled_timeframe tz
  let utc_time := toUTC db local_time
  (utc_time, local_time)

/-- `BaseSnapshotPolicy.timeframe_validation`: due iff `now` has reached the
scheduled UTC time (`now >= scheduled_timeframe_utc`, instants compared). -/
def timeframe_validation (db : TZDatabase) (start_time : Nat) (tz : String)
    (now : Int) : SnapshotSchedule :=
  let p := compute_scheduled_times db start_time tz now
  { is_due := decide (now ≥ toInstant db p.1)
    scheduled_time_utc := p.1
    scheduled_time_local := p.2
    current_time_utc := now
    reason := none }

/-- `DailySnapshotSchedule.is_snapshot_due`: the time-window check with a
human-readable reason.  Never fails. -/
def DailySnapshotSchedule.is_snapshot_due (db : TZDatabase)
    (p : DailySnapshotSchedule) (now : Int) : SnapshotSchedule :=
  let is_time := timeframe_validation db p.start_time p.timezone now
  { is_time with
    reason := some (if is_time.is_due then
        "Snapshot window matched: current time overlaps with scheduled window. Proceeding with snapshot operation."
      else
        "Snapshot window mismatch: current time is outside scheduled window. Skipping snapshot operation.") }

/-- `WeeklySnapshotSchedule.is_snapshot_due`: gate on the current UTC
weekday name matching `start_day`; on a mismatch the source constructs
`SnapshotSchedule(is_due=False, reason=...)` without the two required
scheduled-time fields, which raises a pydantic `ValidationError`. -/
def WeeklySnapshotSchedule.is_snapshot_due (db : TZDatabase)
    (p : WeeklySnapshotSchedule) (now : Int) : Except String SnapshotSchedule :=
  let current_weekday := weekdayName (Int.fdiv now 86400)
  if current_weekday = p.start_day then
    let is_time := timeframe_validation db p.start_time p.timezone now
    .ok { is_time with
      reason := some (if is_time.is_due then
          "Snapshot window matched: current time and current day overlap with scheduled window. Proceeding with snapshot operation."
        else
          "Snapshot window mismatch: current time and current day are outside scheduled window. Skipping snapshot operation.") }
  else
    SnapshotSchedule.constructPy false none none now
      (some ("Snapshot day mismatch: current day '" ++ current_weekday ++
        "' does not match scheduled start day '" ++ p.start_day ++ "'."))

/-- `MonthlySnapshotSchedule.is_snapshot_due`: compute the window, then try
`scheduled_time_utc.replace(day=start_date)`; on `ValueError` fall back to
`replace(day=calendar.monthrange(today.year, today.month)[1])` (today's
month!).  If today's day-of-month does not equal the effective day, the
source again constructs `SnapshotSchedule` without its required fields,
raising a `ValidationError`.  A failure of the fallback `replace` is an
uncaught `ValueError`. -/
def MonthlySnapshotSchedule.is_snapshot_due (db : TZDatabase)
    (p : MonthlySnapshotSchedule) (now : Int) : Except String SnapshotSchedule :=
  let today := civilFromDays (Int.fdiv now 86400)
  let is_time := timeframe_validation db p.start_time p.timezone now
  let expected :=
    match is_time.scheduled_time_utc.replaceDay p.start_date with
    | some e => some e
    | none =>
      let last_date := daysInMonth today.1 today.2.1
      is_time.scheduled_time_utc.replaceDay last_date
  match expected with
  | none => .error "ValueError: day is out of range for month"
  | some expected_date =>
    if today.2.2 = expected_date.dayOfMonth then
      .ok { is_time with
        reason := some (if is_time.is_due then
            "Snapshot window matched: current time and current date overlap with scheduled window. Proceeding with snapshot operation."
          else
            "Snapshot window mismatch: current time and current date are outside scheduled window. Skipping snapshot operation.") }
    else
      SnapshotSchedule.constructPy false none none now
        (some ("Snapshot day mismatch: current day '" ++ intToDecimal today.2.2 ++
          "' does not match scheduled start day '" ++ intToDecimal expected_date.dayOfMonth ++ "'."))

/-! ## Scheduler (snapshot.py) -/

/-- `SnapshotFrequency`: the three recurrence classes. -/
inductive Frequency
  | daily
  | weekly
  | monthly
deriving DecidableEq

/-- A recurrence policy of any class (the value `_get_policy` returns). -/
inductive SubPolicy
  | daily (p : DailySnapshotSchedule)
  | weekly (p : WeeklySnapshotSchedule)
  | monthly (p : MonthlySnapshotSchedule)
deriving DecidableEq

def SubPolicy.is_enabled : SubPolicy → Bool
  | .daily p => p.is_enabled
  | .weekly p => p.is_enabled
  | .monthly p => p.is_enabled

/-- Modelled from the spec: `should_create_snapshot` calls
`policy.get_schedule()` (snapshot.py line 157) but no `get_schedule` method
is defined anywhere under src/.  Spec §4.2 defines the due computation it
must perform: Daily applies the time-window rule; Weekly first gates on the
day name of the current calendar day in the policy's timezone and on a
mismatch *returns* a not-due decision whose reason cites the mismatch
(window fields still populated for diagnostics); Monthly resolves the
effective day-of-month (substituting the last calendar day of today's month
when `start_date` does not exist in it) and is due exactly when today's
day-of-month equals the effective day and the time rule holds, returning a
not-due day-mismatch decision otherwise. -/
def get_schedule (db : TZDatabase) (policy : SubPolicy) (now : Int) : SnapshotSchedule :=
  match policy with
  | .daily p => p.is_snapshot_due db now
  | .weekly p =>
    let localNow := now + db.offsetAtInstant p.timezone now
    let current_weekday := weekdayName (Int.fdiv localNow 86400)
    let is_time := timeframe_validation db p.start_time p.timezone now
    if current_weekday = p.start_day then
      { is_time with reason := some "Snapshot day matched; applying time-window rule." }
    else
      { is_time with
        is_due := false
        reason := some ("Snapshot day mismatch: current day '" ++ current_weekday ++
          "' does not match scheduled start day '" ++ p.start_day ++ "'.") }
  | .monthly p =>
    let today := civilFromDays (Int.fdiv now 86400)
    let effective_day :=
      if p.start_date ≤ daysInMonth today.1 today.2.1 then p.start_date
      else daysInMonth today.1 today.2.1
    let is_time := timeframe_validation db p.start_time p.timezone now
    if today.2.2 = effective_day then
      { is_time with reason := some "Snapshot date matched; applying time-window rule." }
    else
      { is_time with
        is_due := false
        reason := some ("Snapshot day mismatch: current day '" ++ intToDecimal today.2.2 ++
          "' does not match scheduled start day '" ++ intToDecimal effective_day ++ "'.") }

/-- A managed snapshot as consumed by the dedup check: its id and the naive
timestamp parsed from its `created_at` ISO string
(`datetime.fromisoformat`). -/
structure ManagedSnapshot where
  id : String
  created_at : Int
deriving DecidableEq

/-- `SnapshotScheduler._parse_snapshot_time`: interpret the parsed naive
creation timestamp as UTC. -/
def _parse_snapshot_time (created_at : Int) : ZonedDateTime :=
  assumeTz created_at "UTC"

/-- The dedup window end per recurrence class
(`window_end_map[frequency]`). -/
def window_end (frequency : Frequency) (window_start : ZonedDateTime) : ZonedDateTime :=
  match frequency with
  | .daily => window_start.addDays 1
  | .weekly => window_start.addDays 7
  | .monthly => window_start.addOneMonth

/-- The `for snapshot in managed_snapshots` loop of
`_snapshot_exists_in_window`: return `true` on the first snapshot inside
the inclusive window, `false` after an exhausted loop. -/
def windowLoop (db : TZDatabase) (ws we : ZonedDateTime) :
    List ManagedSnapshot → Bool
  | [] => false
  | s :: rest =>
    let snapshot_time := _parse_snapshot_time s.created_at
    if toInstant db ws ≤ toInstant db snapshot_time ∧
        toInstant db snapshot_time ≤ toInstant db we then
      true
    else
      windowLoop db ws we rest

/-- `SnapshotScheduler._snapshot_exists_in_window` over the pre-fetched
managed snapshots: empty fetch short-circuits to `false`; otherwise scan the
inclusive window `[scheduled_time_utc, scheduled_time_utc + period]`. -/
def _snapshot_exists_in_window (db : TZDatabase) (frequency : Frequency)
    (schedule : SnapshotSchedule) (managed_snapshots : List ManagedSnapshot) : Bool :=
  match managed_snapshots with
  | [] => false
  | _ =>
    let ws := schedule.scheduled_time_utc
    windowLoop db ws (window_end frequency ws) managed_snapshots

/-- `VolumeSubscriptionInfo` (models/metadata.py). -/
structure VolumeSubscriptionInfo where
  is_enabled : Bool := false
  snapshot_policy_daily : Option DailySnapshotSchedule := none
  snapshot_policy_weekly : Option WeeklySnapshotSchedule := none
  snapshot_policy_monthly : Option MonthlySnapshotSchedule := none
deriving DecidableEq

/-- `OpenstackVolume` (models/metadata.py). -/
structure OpenstackVolume where
  id : String
  name : Option String := none
  status : String
  snapshot_subscription : VolumeSubscriptionInfo
deriving DecidableEq

/-- `SnapshotScheduler._get_policy`. -/
def _get_policy (volume : OpenstackVolume) (frequency : Frequency) : Option SubPolicy :=
  match frequency with
  | .daily => volume.snapshot_subscription.snapshot_policy_daily.map .daily
  | .weekly => volume.snapshot_subscription.snapshot_policy_weekly.map .weekly
  | .monthly => volume.snapshot_subscription.snapshot_policy_monthly.map .monthly

/-- `SnapshotScheduler.should_create_snapshot`: skip when the policy is
absent or disabled; otherwise compute the schedule, skip when not due, skip
when a managed snapshot already exists in the window, else create. -/
def should_create_snapshot (db : TZDatabase) (volume : OpenstackVolume)
    (frequency : Frequency) (managed_snapshots : List ManagedSnapshot)
    (now : Int) : Bool × Option SnapshotSchedule :=
  match _get_policy volume frequency with
  | none => (false, none)
  | some policy =>
    if policy.is_enabled = false then (false, none)
    else
      let schedule := get_schedule db policy now
      if schedule.is_due = false then (false, none)
      else if _snapshot_exists_in_window db frequency schedule managed_snapshots then
        (false, none)
      else
        (true, some schedule)

/-! ## Retention metadata (models/metadata.py, snapshot.py SnapshotManager) -/

/-- `SnapshotMetadata`: the retention record written onto a created
snapshot.  The source stores the two expiry stamps as ISO-8601 strings; here
`retention_expiry_time` is kept as the instant it denotes and
`retention_expiry_time_zoned` as the zoned timestamp it denotes. -/
structure SnapshotMetadata where
  is_managed : String := "true"
  retention_expiry_time : Int
  retention_expiry_time_zoned : ZonedDateTime
  retention_days : Int
  retention_type : String := "time"
  frequency_type : Frequency
deriving DecidableEq

/-- `SnapshotManager._generate_metadata`: the zoned expiry is the local
scheduled time advanced by `retention_days` calendar days; the UTC expiry is
the instant of the UTC scheduled time advanced by `retention_days` calendar
days. -/
def _generate_metadata (db : TZDatabase) (frequency : Frequency)
    (schedule : SnapshotSchedule) (retention_days : Int) : SnapshotMetadata :=
  let expiry_zoned := schedule.scheduled_time_local.addDays retention_days
  let expiry_utc := toInstant db (schedule.scheduled_time_utc.addDays retention_days)
  { is_managed := "true"
    retention_expiry_time := expiry_utc
    retention_expiry_time_zoned := expiry_zoned
    retention_days := retention_days
    retention_type := "time"
    frequency_type := frequency }

/-- `SnapshotManager._generate_snapshot_name`
(`managed-<class>-<volume_id>-<local_scheduled_timestamp>`; the ISO
rendering of the local timestamp is abstracted to its numeric value). -/
def _generate_snapshot_name (volume_id : String) (frequency : Frequency)
    (schedule : SnapshotSchedule) : String :=
  let freq := match frequency with
    | .daily => "daily"
    | .weekly => "weekly"
    | .monthly => "monthly"
  "managed-" ++ freq ++ "-" ++ volume_id ++ "-" ++
    intToDecimal schedule.scheduled_time_local.localSeconds

/-- Modelled from the spec: `metadata.is_expired()` is called at
orchestrator.py line 109 and snapshot.py line 195 but no `is_expired`
method is defined anywhere under src/.  Spec §4.4 defines it:
`is_expired(retention_record, now) = (now >= retention_expiry_time_utc)`,
with no grace period — exactly at the boundary counts as expired. -/
def SnapshotMetadata.is_expired (m : SnapshotMetadata) (now : Int) : Bool :=
  decide (now ≥ m.retention_expiry_time)

/-! ## Snapshot creation with compensation (snapshot.py SnapshotManager) -/

/-- One observable cloud API action taken by `SnapshotManager`. -/
inductive CloudAction
  | createAttempt
  | created (id : String)
  | injectAttempt (id : String)
  | deleteAttempt (id : String)
deriving DecidableEq

/-- Python exception classes raised by the creation workflow. -/
inductive PyError
  | snapshotCreationError (msg : String)
  | otherError (msg : String)
deriving DecidableEq

/-- The openstacksdk collaborator: the outcomes of a snapshot creation, of
metadata injection onto a given snapshot, and of a snapshot deletion. -/
structure CloudEnv where
  createSnapshot : Except String String
  injectMetadata : String → Except String Unit
  deleteSnapshot : String → Except String Unit

/-- `SnapshotManager._clean_up_snapshot`: attempt the deletion; any failure
is caught and logged, never re-raised.  Returns the action trace. -/
def _clean_up_snapshot (env : CloudEnv) (snapshot_id : String) : List CloudAction :=
  match env.deleteSnapshot snapshot_id with
  | .ok _ => [.deleteAttempt snapshot_id]
  | .error _ => [.deleteAttempt snapshot_id]

/-- `SnapshotManager.create_snapshot_with_metadata`: create the snapshot
(re-raising a creation failure as-is), then inject the retention metadata;
if injection fails, run the compensating `_clean_up_snapshot` and raise
`SnapshotCreationError`.  Returns the outcome together with the trace of
cloud actions. -/
def create_snapshot_with_metadata (db : TZDatabase) (env : CloudEnv)
    (volume_id : String) (frequency : Frequency) (schedule : SnapshotSchedule)
    (retention_days : Int) : Except PyError String × List CloudAction :=
  let _name := _generate_snapshot_name volume_id frequency schedule
  let _metadata := _generate_metadata db frequency schedule retention_days
  match env.createSnapshot with
  | .error e => (.error (.otherError e), [.createAttempt])
  | .ok snapshot_id =>
    match env.injectMetadata snapshot_id with
    | .ok _ =>
      (.ok snapshot_id, [.createAttempt, .created snapshot_id, .injectAttempt snapshot_id])
    | .error e =>
      (.error (.snapshotCreationError
          ("Failed to inject metadata for snapshot " ++ snapshot_id ++ ": " ++ e)),
        [.createAttempt, .created snapshot_id, .injectAttempt snapshot_id] ++
          _clean_up_snapshot env snapshot_id)

/-! ## Metadata codec (models/metadata.py, models/settings.py)

Tags are a flat association list of string keys and string values; keys are
produced by `Settings.get_alias`.  Decoding follows pydantic's per-field
rule: look the alias up, fall back to the field default when absent,
otherwise validate the string value (`ValidationError` on failure). -/

def organization : String := "snapsentry"

/-- `Settings.get_alias`. -/
def get_alias (key : String) : String :=
  "x-" ++ organization ++ "-" ++ key

/-- The flat string tag mapping. -/
abbrev Tags := List (String × String)

def tagLookup (k : String) : Tags → Option String
  | [] => none
  | (k', v) :: rest => if k' = k then some v else tagLookup k rest

def decodeBoolField (tags : Tags) (key : String) (dflt : Bool) : Except String Bool :=
  match tagLookup (get_alias key) tags with
  | none => .ok dflt
  | some s =>
    match parseBoolPy s with
    | some b => .ok b
    | none => .error ("ValidationError: invalid boolean for " ++ key)

def decodeTimeField (tags : Tags) (key : String) (dflt : Nat) : Except String Nat :=
  match tagLookup (get_alias key) tags with
  | none => .ok dflt
  | some s =>
    match parseTimePy s with
    | some t => .ok t
    | none => .error ("ValidationError: invalid time for " ++ key)

def decodeIntField (tags : Tags) (key : String) (dflt : Int) : Except String Int :=
  match tagLookup (get_alias key) tags with
  | none => .ok dflt
  | some s =>
    match parseIntPy s with
    | some v => .ok v
    | none => .error ("ValidationError: invalid integer for " ++ key)

/-- `start_date` keeps the base `ge=1`/`le=31` bounds (defaults are not
re-validated). -/
def decodeStartDateField (tags : Tags) (key : String) (dflt : Int) : Except String Int :=
  match tagLookup (get_alias key) tags with
  | none => .ok dflt
  | some s =>
    match parseIntPy s with
    | none => .error ("ValidationError: invalid integer for " ++ key)
    | some v =>
      if 1 ≤ v ∧ v ≤ 31 then .ok v else .error ("ValidationError: out of range " ++ key)

/-- `timezone` is a plain `str` field (whitespace-stripped by the base model
config) checked by `validate_timezone` against the IANA database. -/
def decodeTimezoneField (db : TZDatabase) (tags : Tags) (key : String) :
    Except String String :=
  match tagLookup (get_alias key) tags with
  | none => .ok "UTC"
  | some s =>
    let s' := strTrim s
    if db.valid s' then .ok s'
    else .error ("ValidationError: invalid timezone for " ++ key)

/-- A `Literal[...]` field: the value must be one of the allowed spellings. -/
def decodeLiteralField (tags : Tags) (key : String) (allowed : List String)
    (dflt : String) : Except String String :=
  match tagLookup (get_alias key) tags with
  | none => .ok dflt
  | some s =>
    if allowed.contains s then .ok s
    else .error ("ValidationError: invalid literal for " ++ key)

/-- `DailySnapshotSchedule(**data)`. -/
def DailySnapshotSchedule.fromTags (db : TZDatabase) (tags : Tags) :
    Except String DailySnapshotSchedule := do
  let e ← decodeBoolField tags "daily-enabled" false
  let st ← decodeTimeField tags "daily-start-time" (23 * 3600 + 29 * 60)
  let tz ← decodeTimezoneField db tags "daily-timezone"
  let rt ← decodeLiteralField tags "daily-retention-type" ["time"] "time"
  let rd ← decodeIntField tags "daily-retention-days" 7
  return { is_enabled := e, start_time := st, timezone := tz,
           retention_type := rt, retention_days := rd }

/-- `WeeklySnapshotSchedule(**data)`. -/
def WeeklySnapshotSchedule.fromTags (db : TZDatabase) (tags : Tags) :
    Except String WeeklySnapshotSchedule := do
  let e ← decodeBoolField tags "weekly-enabled" false
  let st ← decodeTimeField tags "weekly-start-time" (23 * 3600 + 29 * 60)
  let sd ← decodeLiteralField tags "weekly-start-day" dayNames "sunday"
  let tz ← decodeTimezoneField db tags "weekly-timezone"
  let rt ← decodeLiteralField tags "weekly-retention-type" ["time"] "time"
  let rd ← decodeIntField tags "weekly-retention-days" 30
  return { is_enabled := e, start_time := st, start_day := sd, timezone := tz,
           retention_type := rt, retention_days := rd }

/-- `MonthlySnapshotSchedule(**data)`. -/
def MonthlySnapshotSchedule.fromTags (db : TZDatabase) (tags : Tags) :
    Except String MonthlySnapshotSchedule := do
  let e ← decodeBoolField tags "monthly-enabled" false
  let st ← decodeTimeField tags "monthly-start-time" (23 * 3600 + 29 * 60)
  let sd ← decodeStartDateField tags "monthly-start-date" 1
  let tz ← decodeTimezoneField db tags "monthly-timezone"
  let rt ← decodeLiteralField tags "monthly-retention-type" ["time"] "time"
  let rd ← decodeIntField tags "monthly-retention-days" 90
  return { is_enabled := e, start_time := st, start_date := sd, timezone := tz,
           retention_type := rt, retention_days := rd }

/-- `VolumeSubscriptionInfo.load_fields_from_dict`: build each sub-policy
from the flat tags and keep it only when its `is_enabled` decoded true. -/
def VolumeSubscriptionInfo.load_fields_from_dict (db : TZDatabase) (tags : Tags) :
    Except String VolumeSubscriptionInfo := do
  let snapshot_policy_daily ← DailySnapshotSchedule.fromTags db tags
  let snapshot_policy_weekly ← WeeklySnapshotSchedule.fromTags db tags
  let snapshot_policy_monthly ← MonthlySnapshotSchedule.fromTags db tags
  let e ← decodeBoolField tags "snapsentry-managed" false
  return { is_enabled := e
           snapshot_policy_daily :=
             if snapshot_policy_daily.is_enabled then some snapshot_policy_daily else none
           snapshot_policy_weekly :=
             if snapshot_policy_weekly.is_enabled then some snapshot_policy_weekly else none
           snapshot_policy_monthly :=
             if snapshot_policy_monthly.is_enabled then some snapshot_policy_monthly else none }

/-- Flat alias-keyed dump of a daily policy (the leaf keys its
`model_dump(by_alias=True)` contributes, in field order). -/
def DailySnapshotSchedule.dumpTags (p : DailySnapshotSchedule) : Tags :=
  [(get_alias "daily-enabled", boolToStr p.is_enabled),
   (get_alias "daily-start-time", timeToStr p.start_time),
   (get_alias "daily-timezone", p.timezone),
   (get_alias "daily-retention-type", p.retention_type),
   (get_alias "daily-retention-days", intToDecimal p.retention_days)]

def WeeklySnapshotSchedule.dumpTags (p : WeeklySnapshotSchedule) : Tags :=
  [(get_alias "weekly-enabled", boolToStr p.is_enabled),
   (get_alias "weekly-start-time", timeToStr p.start_time),
   (get_alias "weekly-start-day", p.start_day),
   (get_alias "weekly-timezone", p.timezone),
   (get_alias "weekly-retention-type", p.retention_type),
   (get_alias "weekly-retention-days", intToDecimal p.retention_days)]

def MonthlySnapshotSchedule.dumpTags (p : MonthlySnapshotSchedule) : Tags :=
  [(get_alias "monthly-enabled", boolToStr p.is_enabled),
   (get_alias "monthly-start-time", timeToStr p.start_time),
   (get_alias "monthly-start-date", intToDecimal p.start_date),
   (get_alias "monthly-timezone", p.timezone),
   (get_alias "monthly-retention-type", p.retention_type),
   (get_alias "monthly-retention-days", intToDecimal p.retention_days)]

/-- `VolumeSubscriptionInfo.dump_flat_str_dict`: flatten
`model_dump(by_alias=True)` keeping only leaf keys, stringifying values
(`bool` to `"true"`/`"false"`, `int` via `str`, `time` via `str`), and
skipping `None` sub-policies. -/
def VolumeSubscriptionInfo.dump_flat_str_dict (p : VolumeSubscriptionInfo) : Tags :=
  [(get_alias "snapsentry-managed", boolToStr p.is_enabled)] ++
    (match p.snapshot_policy_daily with
     | some d => d.dumpTags
     | none => []) ++
    (match p.snapshot_policy_weekly with
     | some w => w.dumpTags
     | none => []) ++
    (match p.snapshot_policy_monthly with
     | some m => m.dumpTags
     | none => [])

/-! ## Representable policies

The values the engine itself can produce or persist: field values are within
their validated ranges, the timezone is a recognised (whitespace-free) IANA
name, and — because `load_fields_from_dict` nulls out disabled sub-policies —
a present sub-policy is enabled. -/

def DailySnapshotSchedule.wellFormed (db : TZDatabase) (p : DailySnapshotSchedule) : Prop :=
  p.is_enabled = true ∧ p.start_time < 86400 ∧ db.valid p.timezone = true ∧
    strTrim p.timezone = p.timezone ∧ p.retention_type = "time"

def WeeklySnapshotSchedule.wellFormed (db : TZDatabase) (p : WeeklySnapshotSchedule) : Prop :=
  p.is_enabled = true ∧ p.start_time < 86400 ∧ dayNames.contains p.start_day = true ∧
    db.valid p.timezone = true ∧ strTrim p.timezone = p.timezone ∧ p.retention_type = "time"

def MonthlySnapshotSchedule.wellFormed (db : TZDatabase) (p : MonthlySnapshotSchedule) : Prop :=
  p.is_enabled = true ∧ p.start_time < 86400 ∧ 1 ≤ p.start_date ∧ p.start_date ≤ 31 ∧
    db.valid p.timezone = true ∧ strTrim p.timezone = p.timezone ∧ p.retention_type = "time"

def VolumeSubscriptionInfo.wellFormed (db : TZDatabase) (p : VolumeSubscriptionInfo) : Prop :=
  (∀ d, p.snapshot_policy_daily = some d → d.wellFormed db) ∧
  (∀ w, p.snapshot_policy_weekly = some w → w.wellFormed db) ∧
  (∀ m, p.snapshot_policy_monthly = some m → m.wellFormed db)

/-! ## Lemmas: the string codec printers and parsers are inverse -/

theorem data_mk (l : List Char) : (String.mk l).data = l := rfl

theorem digitChar_toNat {d : Nat} (h : d < 10) : (digitChar d).toNat = 48 + d := by
  interval_cases d <;> rfl

theorem isDigitChar_digitChar {d : Nat} (h : d < 10) :
    isDigitChar (digitChar d) = true := by
  interval_cases d <;> rfl

theorem natDigitsAux_ne_nil {fuel n : Nat} (h : n < fuel) : natDigitsAux fuel n ≠ [] := by
  cases fuel with
  | zero => omega
  | succ f =>
    simp only [natDigitsAux]
    split <;> simp

theorem natDigits_ne_nil (n : Nat) : natDigits n ≠ [] :=
  natDigitsAux_ne_nil (by omega)

theorem natDigitsAux_all (fuel : Nat) : ∀ n, n < fuel →
    (natDigitsAux fuel n).all isDigitChar = true := by
  induction fuel with
  | zero => intro n h; omega
  | succ f ih =>
    intro n h
    simp only [natDigitsAux]
    split
    · rename_i h10
      simp [isDigitChar_digitChar h10]
    · rename_i h10
      have hlt : n / 10 < f := by
        have hds := Nat.div_lt_self (show 0 < n by omega) (show 1 < 10 by omega)
        omega
      simp [List.all_append, ih (n / 10) hlt,
        isDigitChar_digitChar (Nat.mod_lt n (by omega))]

theorem natDigits_all (n : Nat) : (natDigits n).all isDigitChar = true :=
  natDigitsAux_all (n + 1) n (by omega)

theorem natDigitsAux_foldl (fuel : Nat) : ∀ n a, n < fuel →
    (natDigitsAux fuel n).foldl (fun a c => a * 10 + (c.toNat - 48)) a =
      a * 10 ^ (natDigitsAux fuel n).length + n := by
  induction fuel with
  | zero => intro n a h; omega
  | succ f ih =>
    intro n a h
    simp only [natDigitsAux]
    split
    · rename_i h10
      simp [List.foldl, digitChar_toNat h10]
    · rename_i h10
      have hlt : n / 10 < f := by
        have hds := Nat.div_lt_self (show 0 < n by omega) (show 1 < 10 by omega)
        omega
      rw [List.foldl_append, List.length_append, ih (n / 10) a hlt]
      simp only [List.foldl, List.length_cons, List.length_nil,
        digitChar_toNat (Nat.mod_lt n (by omega))]
      have hp : 10 ^ ((natDigitsAux f (n / 10)).length + (0 + 1)) =
          10 ^ (natDigitsAux f (n / 10)).length * 10 := by
        rw [pow_succ]
      rw [hp, ← mul_assoc]
      omega

theorem parseNatChars_natDigits (n : Nat) : parseNatChars (natDigits n) = some n := by
  unfold parseNatChars
  rw [if_neg (natDigits_ne_nil n), if_pos (natDigits_all n)]
  rw [show natDigits n = natDigitsAux (n + 1) n from rfl,
    natDigitsAux_foldl (n + 1) n 0 (by omega)]
  simp

theorem pad2_all (n : Nat) : (pad2 n).all isDigitChar = true := by
  unfold pad2
  split
  · rename_i h
    simp [isDigitChar_digitChar h]
    rfl
  · exact natDigits_all n

theorem pad2_ne_nil (n : Nat) : pad2 n ≠ [] := by
  unfold pad2
  split
  · simp
  · exact natDigits_ne_nil n

theorem parseNatChars_pad2 (n : Nat) : parseNatChars (pad2 n) = some n := by
  unfold pad2
  split
  · rename_i h
    unfold parseNatChars
    rw [if_neg (by simp), if_pos (by simp [isDigitChar_digitChar h]; rfl)]
    simp [List.foldl, digitChar_toNat h]
  · exact parseNatChars_natDigits n

theorem parseBoolPy_boolToStr (b : Bool) : parseBoolPy (boolToStr b) = some b := by
  cases b <;> rfl

theorem splitColon_ne_nil (cs : List Char) : splitColon cs ≠ [] := by
  cases cs with
  | nil => simp [splitColon]
  | cons c rest =>
    simp only [splitColon]
    cases splitColon rest with
    | nil => simp
    | cons g gs =>
      by_cases hc : c = ':' <;> simp [hc]

theorem no_colon_of_all_digits {cs : List Char} (h : cs.all isDigitChar = true) :
    ':' ∉ cs := by
  intro hm
  have := List.all_eq_true.mp h _ hm
  simp [isDigitChar] at this

theorem splitColon_no_colon {cs : List Char} (h : ':' ∉ cs) : splitColon cs = [cs] := by
  induction cs with
  | nil => rfl
  | cons c rest ih =>
    simp only [List.mem_cons, not_or] at h
    simp only [splitColon, ih h.2]
    rw [if_neg (fun hc => h.1 hc.symm)]

theorem splitColon_append {cs : List Char} (rest : List Char) (h : ':' ∉ cs) :
    splitColon (cs ++ ':' :: rest) = cs :: splitColon rest := by
  induction cs with
  | nil =>
    simp only [List.nil_append, splitColon]
    cases hs : splitColon rest with
    | nil => exact absurd hs (splitColon_ne_nil rest)
    | cons g gs => simp
  | cons c cs ih =>
    simp only [List.mem_cons, not_or] at h
    simp only [List.cons_append, splitColon, List.append_eq, ih h.2]
    rw [if_neg (fun hc => h.1 hc.symm)]

theorem parseTimePy_timeToStr {t : Nat} (h : t < 86400) :
    parseTimePy (timeToStr t) = some t := by
  unfold parseTimePy timeToStr
  rw [data_mk,
    splitColon_append _ (no_colon_of_all_digits (pad2_all _)),
    splitColon_append _ (no_colon_of_all_digits (pad2_all _)),
    splitColon_no_colon (no_colon_of_all_digits (pad2_all _))]
  simp only [timeFromParts, parseNatChars_pad2]
  rw [if_pos ⟨by omega, by omega, by omega⟩]
  congr 1
  omega

theorem parseIntChars_digits {cs : List Char} (hne : cs ≠ [])
    (hall : cs.all isDigitChar = true) :
    parseIntChars cs = (parseNatChars cs).map (fun n : Nat => (n : Int)) := by
  cases cs with
  | nil => exact absurd rfl hne
  | cons c rest =>
    have hc : isDigitChar c = true := List.all_eq_true.mp hall c (by simp)
    have hcd : ¬(c = '-') := by
      intro hc'
      rw [hc'] at hc
      simp [isDigitChar] at hc
    simp only [parseIntChars]
    rw [if_neg hcd]

theorem parseIntPy_intToDecimal (i : Int) : parseIntPy (intToDecimal i) = some i := by
  unfold intToDecimal
  split
  · rename_i h
    unfold parseIntPy
    rw [String.data_append]
    have hmk : (natToDecimal (-i).toNat).data = natDigits (-i).toNat := rfl
    have hdash : ("-" : String).data = ['-'] := rfl
    rw [hmk, hdash]
    simp only [List.cons_append, List.nil_append, parseIntChars]
    rw [if_pos trivial, parseNatChars_natDigits]
    have hnn : (((-i).toNat : Int)) = -i := Int.toNat_of_nonneg (by omega)
    simp only [Option.map]
    rw [hnn, neg_neg]
  · rename_i h
    unfold parseIntPy
    have hmk : (natToDecimal i.toNat).data = natDigits i.toNat := rfl
    rw [hmk, parseIntChars_digits (natDigits_ne_nil _) (natDigits_all _),
      parseNatChars_natDigits]
    simp only [Option.map]
    rw [Int.toNat_of_nonneg (le_of_not_lt h)]

/-! ## Lemmas: evaluating the per-field tag decoders -/

theorem decodeBoolField_absent {tags : Tags} {key : String}
    (h : tagLookup (get_alias key) tags = none) (dflt : Bool) :
    decodeBoolField tags key dflt = .ok dflt := by
  unfold decodeBoolField
  rw [h]

theorem decodeBoolField_found {tags : Tags} {key : String} {b : Bool}
    (h : tagLookup (get_alias key) tags = some (boolToStr b)) (dflt : Bool) :
    decodeBoolField tags key dflt = .ok b := by
  unfold decodeBoolField
  rw [h]
  simp [parseBoolPy_boolToStr]

theorem decodeTimeField_absent {tags : Tags} {key : String}
    (h : tagLookup (get_alias key) tags = none) (dflt : Nat) :
    decodeTimeField tags key dflt = .ok dflt := by
  unfold decodeTimeField
  rw [h]

theorem decodeTimeField_found {tags : Tags} {key : String} {t : Nat}
    (h : tagLookup (get_alias key) tags = some (timeToStr t)) (ht : t < 86400)
    (dflt : Nat) : decodeTimeField tags key dflt = .ok t := by
  unfold decodeTimeField
  rw [h]
  simp [parseTimePy_timeToStr ht]

theorem decodeIntField_absent {tags : Tags} {key : String}
    (h : tagLookup (get_alias key) tags = none) (dflt : Int) :
    decodeIntField tags key dflt = .ok dflt := by
  unfold decodeIntField
  rw [h]

theorem decodeIntField_found {tags : Tags} {key : String} {v : Int}
    (h : tagLookup (get_alias key) tags = some (intToDecimal v)) (dflt : Int) :
    decodeIntField tags key dflt = .ok v := by
  unfold decodeIntField
  rw [h]
  simp [parseIntPy_intToDecimal]

theorem decodeStartDateField_absent {tags : Tags} {key : String}
    (h : tagLookup (get_alias key) tags = none) (dflt : Int) :
    decodeStartDateField tags key dflt = .ok dflt := by
  unfold decodeStartDateField
  rw [h]

theorem decodeStartDateField_found {tags : Tags} {key : String} {v : Int}
    (h : tagLookup (get_alias key) tags = some (intToDecimal v))
    (h1 : 1 ≤ v) (h2 : v ≤ 31) (dflt : Int) :
    decodeStartDateField tags key dflt = .ok v := by
  unfold decodeStartDateField
  rw [h]
  simp [parseIntPy_intToDecimal, h1, h2]

theorem decodeTimezoneField_absent {db : TZDatabase} {tags : Tags} {key : String}
    (h : tagLookup (get_alias key) tags = none) :
    decodeTimezoneField db tags key = .ok "UTC" := by
  unfold decodeTimezoneField
  rw [h]

theorem decodeTimezoneField_found {db : TZDatabase} {tags : Tags} {key : String}
    {tz : String} (h : tagLookup (get_alias key) tags = some tz)
    (htrim : strTrim tz = tz) (hv : db.valid tz = true) :
    decodeTimezoneField db tags key = .ok tz := by
  unfold decodeTimezoneField
  rw [h]
  simp [htrim, hv]

theorem decodeLiteralField_absent {tags : Tags} {key : String}
    (h : tagLookup (get_alias key) tags = none) (allowed : List String)
    (dflt : String) : decodeLiteralField tags key allowed dflt = .ok dflt := by
  unfold decodeLiteralField
  rw [h]

theorem decodeLiteralField_found {tags : Tags} {key : String} {s : String}
    {allowed : List String} (h : tagLookup (get_alias key) tags = some s)
    (hs : allowed.contains s = true) (dflt : String) :
    decodeLiteralField tags key allowed dflt = .ok s := by
  unfold decodeLiteralField
  rw [h]
  simp only [hs, if_true]

/-! ## Lemmas: evaluating the policy decoders -/

theorem fromTags_daily_of_lookups {db : TZDatabase} {tags : Tags}
    {d : DailySnapshotSchedule}
    (hst : d.start_time < 86400)
    (htrim : strTrim d.timezone = d.timezone) (hv : db.valid d.timezone = true)
    (hrt : d.retention_type = "time")
    (h1 : tagLookup (get_alias "daily-enabled") tags = some (boolToStr d.is_enabled))
    (h2 : tagLookup (get_alias "daily-start-time") tags = some (timeToStr d.start_time))
    (h3 : tagLookup (get_alias "daily-timezone") tags = some d.timezone)
    (h4 : tagLookup (get_alias "daily-retention-type") tags = some d.retention_type)
    (h5 : tagLookup (get_alias "daily-retention-days") tags =
      some (intToDecimal d.retention_days)) :
    DailySnapshotSchedule.fromTags db tags = .ok d := by
  unfold DailySnapshotSchedule.fromTags
  rw [decodeBoolField_found h1, decodeTimeField_found h2 hst,
    decodeTimezoneField_found h3 htrim hv,
    decodeLiteralField_found h4 (by rw [hrt]; rfl),
    decodeIntField_found h5]
  rfl

theorem fromTags_daily_defaults {db : TZDatabase} {tags : Tags}
    (h1 : tagLookup (get_alias "daily-enabled") tags = none)
    (h2 : tagLookup (get_alias "daily-start-time") tags = none)
    (h3 : tagLookup (get_alias "daily-timezone") tags = none)
    (h4 : tagLookup (get_alias "daily-retention-type") tags = none)
    (h5 : tagLookup (get_alias "daily-retention-days") tags = none) :
    DailySnapshotSchedule.fromTags db tags = .ok {} := by
  unfold DailySnapshotSchedule.fromTags
  rw [decodeBoolField_absent h1, decodeTimeField_absent h2,
    decodeTimezoneField_absent h3, decodeLiteralField_absent h4,
    decodeIntField_absent h5]
  rfl

theorem fromTags_weekly_of_lookups {db : TZDatabase} {tags : Tags}
    {w : WeeklySnapshotSchedule}
    (hst : w.start_time < 86400)
    (hsd : dayNames.contains w.start_day = true)
    (htrim : strTrim w.timezone = w.timezone) (hv : db.valid w.timezone = true)
    (hrt : w.retention_type = "time")
    (h1 : tagLookup (get_alias "weekly-enabled") tags = some (boolToStr w.is_enabled))
    (h2 : tagLookup (get_alias "weekly-start-time") tags = some (timeToStr w.start_time))
    (h3 : tagLookup (get_alias "weekly-start-day") tags = some w.start_day)
    (h4 : tagLookup (get_alias "weekly-timezone") tags = some w.timezone)
    (h5 : tagLookup (get_alias "weekly-retention-type") tags = some w.retention_type)
    (h6 : tagLookup (get_alias "weekly-retention-days") tags =
      some (intToDecimal w.retention_days)) :
    WeeklySnapshotSchedule.fromTags db tags = .ok w := by
  unfold WeeklySnapshotSchedule.fromTags
  rw [decodeBoolField_found h1, decodeTimeField_found h2 hst,
    decodeLiteralField_found h3 hsd,
    decodeTimezoneField_found h4 htrim hv,
    decodeLiteralField_found h5 (by rw [hrt]; rfl),
    decodeIntField_found h6]
  rfl

theorem fromTags_weekly_defaults {db : TZDatabase} {tags : Tags}
    (h1 : tagLookup (get_alias "weekly-enabled") tags = none)
    (h2 : tagLookup (get_alias "weekly-start-time") tags = none)
    (h3 : tagLookup (get_alias "weekly-start-day") tags = none)
    (h4 : tagLookup (get_alias "weekly-timezone") tags = none)
    (h5 : tagLookup (get_alias "weekly-retention-type") tags = none)
    (h6 : tagLookup (get_alias "weekly-retention-days") tags = none) :
    WeeklySnapshotSchedule.fromTags db tags = .ok {} := by
  unfold WeeklySnapshotSchedule.fromTags
  rw [decodeBoolField_absent h1, decodeTimeField_absent h2,
    decodeLiteralField_absent h3, decodeTimezoneField_absent h4,
    decodeLiteralField_absent h5, decodeIntField_absent h6]
  rfl

theorem fromTags_monthly_of_lookups {db : TZDatabase} {tags : Tags}
    {m : MonthlySnapshotSchedule}
    (hst : m.start_time < 86400)
    (hd1 : 1 ≤ m.start_date) (hd2 : m.start_date ≤ 31)
    (htrim : strTrim m.timezone = m.timezone) (hv : db.valid m.timezone = true)
    (hrt : m.retention_type = "time")
    (h1 : tagLookup (get_alias "monthly-enabled") tags = some (boolToStr m.is_enabled))
    (h2 : tagLookup (get_alias "monthly-start-time") tags = some (timeToStr m.start_time))
    (h3 : tagLookup (get_alias "monthly-start-date") tags =
      some (intToDecimal m.start_date))
    (h4 : tagLookup (get_alias "monthly-timezone") tags = some m.timezone)
    (h5 : tagLookup (get_alias "monthly-retention-type") tags = some m.retention_type)
    (h6 : tagLookup (get_alias "monthly-retention-days") tags =
      some (intToDecimal m.retention_days)) :
    MonthlySnapshotSchedule.fromTags db tags = .ok m := by
  unfold MonthlySnapshotSchedule.fromTags
  rw [decodeBoolField_found h1, decodeTimeField_found h2 hst,
    decodeStartDateField_found h3 hd1 hd2,
    decodeTimezoneField_found h4 htrim hv,
    decodeLiteralField_found h5 (by rw [hrt]; rfl),
    decodeIntField_found h6]
  rfl

theorem fromTags_monthly_defaults {db : TZDatabase} {tags : Tags}
    (h1 : tagLookup (get_alias "monthly-enabled") tags = none)
    (h2 : tagLookup (get_alias "monthly-start-time") tags = none)
    (h3 : tagLookup (get_alias "monthly-start-date") tags = none)
    (h4 : tagLookup (get_alias "monthly-timezone") tags = none)
    (h5 : tagLookup (get_alias "monthly-retention-type") tags = none)
    (h6 : tagLookup (get_alias "monthly-retention-days") tags = none) :
    MonthlySnapshotSchedule.fromTags db tags = .ok {} := by
  unfold MonthlySnapshotSchedule.fromTags
  rw [decodeBoolField_absent h1, decodeTimeField_absent h2,
    decodeStartDateField_absent h3, decodeTimezoneField_absent h4,
    decodeLiteralField_absent h5, decodeIntField_absent h6]
  rfl

theorem load_fields_eq {db : TZDatabase} {tags : Tags} {e : Bool}
    {d : DailySnapshotSchedule} {w : WeeklySnapshotSchedule}
    {m : MonthlySnapshotSchedule}
    (hd : DailySnapshotSchedule.fromTags db tags = .ok d)
    (hw : WeeklySnapshotSchedule.fromTags db tags = .ok w)
    (hm : MonthlySnapshotSchedule.fromTags db tags = .ok m)
    (he : tagLookup (get_alias "snapsentry-managed") tags = some (boolToStr e)) :
    VolumeSubscriptionInfo.load_fields_from_dict db tags = .ok
      { is_enabled := e
        snapshot_policy_daily := if d.is_enabled then some d else none
        snapshot_policy_weekly := if w.is_enabled then some w else none
        snapshot_policy_monthly := if m.is_enabled then some m else none } := by
  unfold VolumeSubscriptionInfo.load_fields_from_dict
  rw [hd, hw, hm, decodeBoolField_found he]
  rfl

/-! ## Claim C5: decode after encode -/

/-- C5 counterexample: the round trip `decode(encode(P)) == P` fails for a
representable subscription holding a present but disabled daily policy —
decoding nulls the disabled sub-policy out. -/
theorem C5_decode_encode_not_involutive :
    VolumeSubscriptionInfo.load_fields_from_dict utcOnly
        (VolumeSubscriptionInfo.dump_flat_str_dict
          { is_enabled := true, snapshot_policy_daily := some {} }) ≠
      .ok { is_enabled := true, snapshot_policy_daily := some {} } := by
  decide

/-- C5 (amended): for every subscription `P` whose present sub-policies are
all enabled (with validated field values — exactly the policies decoding can
produce), decoding the flat string tag mapping produced by encoding `P`
yields `P` back: `decode(encode(P)) == P`. -/
theorem C5_decode_encode_roundtrip (db : TZDatabase) (P : VolumeSubscriptionInfo)
    (hwf : P.wellFormed db) :
    VolumeSubscriptionInfo.load_fields_from_dict db P.dump_flat_str_dict = .ok P := by
  obtain ⟨hd, hw, hm⟩ := hwf
  rcases P with ⟨e, od, ow, om⟩
  have hDd : ∀ d : DailySnapshotSchedule, od = some d → d.wellFormed db := hd
  have hWw : ∀ w : WeeklySnapshotSchedule, ow = some w → w.wellFormed db := hw
  have hMm : ∀ m : MonthlySnapshotSchedule, om = some m → m.wellFormed db := hm
  rcases od with _ | d <;> rcases ow with _ | w <;> rcases om with _ | m
  case none.none.none =>
    have hD : DailySnapshotSchedule.fromTags db
        (VolumeSubscriptionInfo.dump_flat_str_dict ⟨e, none, none, none⟩) = .ok {} := by
      apply fromTags_daily_defaults <;> rfl
    have hW : WeeklySnapshotSchedule.fromTags db
        (VolumeSubscriptionInfo.dump_flat_str_dict ⟨e, none, none, none⟩) = .ok {} := by
      apply fromTags_weekly_defaults <;> rfl
    have hM : MonthlySnapshotSchedule.fromTags db
        (VolumeSubscriptionInfo.dump_flat_str_dict ⟨e, none, none, none⟩) = .ok {} := by
      apply fromTags_monthly_defaults <;> rfl
    have hE : tagLookup (get_alias "snapsentry-managed")
        (VolumeSubscriptionInfo.dump_flat_str_dict ⟨e, none, none, none⟩) =
        some (boolToStr e) := rfl
    rw [load_fields_eq hD hW hM hE]
    simp
  case none.none.some =>
    obtain ⟨hen3, hst3, hd1, hd2, hvz3, htr3, hrt3⟩ := hMm m rfl
    have hD : DailySnapshotSchedule.fromTags db
        (VolumeSubscriptionInfo.dump_flat_str_dict ⟨e, none, none, some m⟩) = .ok {} := by
      apply fromTags_daily_defaults <;> rfl
    have hW : WeeklySnapshotSchedule.fromTags db
        (VolumeSubscriptionInfo.dump_flat_str_dict ⟨e, none, none, some m⟩) = .ok {} := by
      apply fromTags_weekly_defaults <;> rfl
    have hM : MonthlySnapshotSchedule.fromTags db
        (VolumeSubscriptionInfo.dump_flat_str_dict ⟨e, none, none, some m⟩) = .ok m := by
      apply fromTags_monthly_of_lookups hst3 hd1 hd2 htr3 hvz3 hrt3 <;> rfl
    have hE : tagLookup (get_alias "snapsentry-managed")
        (VolumeSubscriptionInfo.dump_flat_str_dict ⟨e, none, none, some m⟩) =
        some (boolToStr e) := rfl
    rw [load_fields_eq hD hW hM hE]
    simp [hen3]
  case none.some.none =>
    obtain ⟨hen2, hst2, hsd2, hvz2, htr2, hrt2⟩ := hWw w rfl
    have hD : DailySnapshotSchedule.fromTags db
        (VolumeSubscriptionInfo.dump_flat_str_dict ⟨e, none, some w, none⟩) = .ok {} := by
      apply fromTags_daily_defaults <;> rfl
    have hW : WeeklySnapshotSchedule.fromTags db
        (VolumeSubscriptionInfo.dump_flat_str_dict ⟨e, none, some w, none⟩) = .ok w := by
      apply fromTags_weekly_of_lookups hst2 hsd2 htr2 hvz2 hrt2 <;> rfl
    have hM : MonthlySnapshotSchedule.fromTags db
        (VolumeSubscriptionInfo.dump_flat_str_dict ⟨e, none, some w, none⟩) = .ok {} := by
      apply fromTags_monthly_defaults <;> rfl
    have hE : tagLookup (get_alias "snapsentry-managed")
        (VolumeSubscriptionInfo.dump_flat_str_dict ⟨e, none, some w, none⟩) =
        some (boolToStr e) := rfl
    rw [load_fields_eq hD hW hM hE]
    simp [hen2]
  case none.some.some =>
    obtain ⟨hen2, hst2, hsd2, hvz2, htr2, hrt2⟩ := hWw w rfl
    obtain ⟨hen3, hst3, hd1, hd2, hvz3, htr3, hrt3⟩ := hMm m rfl
    have hD : DailySnapshotSchedule.fromTags db
        (VolumeSubscriptionInfo.dump_flat_str_dict ⟨e, none, some w, some m⟩) = .ok {} := by
      apply fromTags_daily_defaults <;> rfl
    have hW : WeeklySnapshotSchedule.fromTags db
        (VolumeSubscriptionInfo.dump_flat_str_dict ⟨e, none, some w, some m⟩) = .ok w := by
      apply fromTags_weekly_of_lookups hst2 hsd2 htr2 hvz2 hrt2 <;> rfl
    have hM : MonthlySnapshotSchedule.fromTags db
        (VolumeSubscriptionInfo.dump_flat_str_dict ⟨e, none, some w, some m⟩) = .ok m := by
      apply fromTags_monthly_of_lookups hst3 hd1 hd2 htr3 hvz3 hrt3 <;> rfl
    have hE : tagLookup (get_alias "snapsentry-managed")
        (VolumeSubscriptionInfo.dump_flat_str_dict ⟨e, none, some w, some m⟩) =
        some (boolToStr e) := rfl
    rw [load_fields_eq hD hW hM hE]
    simp [hen2, hen3]
  case some.none.none =>
    obtain ⟨hen, hst, hvz, htr, hrt⟩ := hDd d rfl
    have hD : DailySnapshotSchedule.fromTags db
        (VolumeSubscriptionInfo.dump_flat_str_dict ⟨e, some d, none, none⟩) = .ok d := by
      apply fromTags_daily_of_lookups hst htr hvz hrt <;> rfl
    have hW : WeeklySnapshotSchedule.fromTags db
        (VolumeSubscriptionInfo.dump_flat_str_dict ⟨e, some d, none, none⟩) = .ok {} := by
      apply fromTags_weekly_defaults <;> rfl
    have hM : MonthlySnapshotSchedule.fromTags db
        (VolumeSubscriptionInfo.dump_flat_str_dict ⟨e, some d, none, none⟩) = .ok {} := by
      apply fromTags_monthly_defaults <;> rfl
    have hE : tagLookup (get_alias "snapsentry-managed")
        (VolumeSubscriptionInfo.dump_flat_str_dict ⟨e, some d, none, none⟩) =
        some (boolToStr e) := rfl
    rw [load_fields_eq hD hW hM hE]
    simp [hen]
  case some.none.some =>
    obtain ⟨hen, hst, hvz, htr, hrt⟩ := hDd d rfl
    obtain ⟨hen3, hst3, hd1, hd2, hvz3, htr3, hrt3⟩ := hMm m rfl
    have hD : DailySnapshotSchedule.fromTags db
        (VolumeSubscriptionInfo.dump_flat_str_dict ⟨e, some d, none, some m⟩) = .ok d := by
      apply fromTags_daily_of_lookups hst htr hvz hrt <;> rfl
    have hW : WeeklySnapshotSchedule.fromTags db
        (VolumeSubscriptionInfo.dump_flat_str_dict ⟨e, some d, none, some m⟩) = .ok {} := by
      apply fromTags_weekly_defaults <;> rfl
    have hM : MonthlySnapshotSchedule.fromTags db
        (VolumeSubscriptionInfo.dump_flat_str_dict ⟨e, some d, none, some m⟩) = .ok m := by
      apply fromTags_monthly_of_lookups hst3 hd1 hd2 htr3 hvz3 hrt3 <;> rfl
    have hE : tagLookup (get_alias "snapsentry-managed")
        (VolumeSubscriptionInfo.dump_flat_str_dict ⟨e, some d, none, some m⟩) =
        some (boolToStr e) := rfl
    rw [load_fields_eq hD hW hM hE]
    simp [hen, hen3]
  case some.some.none =>
    obtain ⟨hen, hst, hvz, htr, hrt⟩ := hDd d rfl
    obtain ⟨hen2, hst2, hsd2, hvz2, htr2, hrt2⟩ := hWw w rfl
    have hD : DailySnapshotSchedule.fromTags db
        (VolumeSubscriptionInfo.dump_flat_str_dict ⟨e, some d, some w, none⟩) = .ok d := by
      apply fromTags_daily_of_lookups hst htr hvz hrt <;> rfl
    have hW : WeeklySnapshotSchedule.fromTags db
        (VolumeSubscriptionInfo.dump_flat_str_dict ⟨e, some d, some w, none⟩) = .ok w := by
      apply fromTags_weekly_of_lookups hst2 hsd2 htr2 hvz2 hrt2 <;> rfl
    have hM : MonthlySnapshotSchedule.fromTags db
        (VolumeSubscriptionInfo.dump_flat_str_dict ⟨e, some d, some w, none⟩) = .ok {} := by
      apply fromTags_monthly_defaults <;> rfl
    have hE : tagLookup (get_alias "snapsentry-managed")
        (VolumeSubscriptionInfo.dump_flat_str_dict ⟨e, some d, some w, none⟩) =
        some (boolToStr e) := rfl
    rw [load_fields_eq hD hW hM hE]
    simp [hen, hen2]
  case some.some.some =>
    obtain ⟨hen, hst, hvz, htr, hrt⟩ := hDd d rfl
    obtain ⟨hen2, hst2, hsd2, hvz2, htr2, hrt2⟩ := hWw w rfl
    obtain ⟨hen3, hst3, hd1, hd2, hvz3, htr3, hrt3⟩ := hMm m rfl
    have hD : DailySnapshotSchedule.fromTags db
        (VolumeSubscriptionInfo.dump_flat_str_dict ⟨e, some d, some w, some m⟩) = .ok d := by
      apply fromTags_daily_of_lookups hst htr hvz hrt <;> rfl
    have hW : WeeklySnapshotSchedule.fromTags db
        (VolumeSubscriptionInfo.dump_flat_str_dict ⟨e, some d, some w, some m⟩) = .ok w := by
      apply fromTags_weekly_of_lookups hst2 hsd2 htr2 hvz2 hrt2 <;> rfl
    have hM : MonthlySnapshotSchedule.fromTags db
        (VolumeSubscriptionInfo.dump_flat_str_dict ⟨e, some d, some w, some m⟩) = .ok m := by
      apply fromTags_monthly_of_lookups hst3 hd1 hd2 htr3 hvz3 hrt3 <;> rfl
    have hE : tagLookup (get_alias "snapsentry-managed")
        (VolumeSubscriptionInfo.dump_flat_str_dict ⟨e, some d, some w, some m⟩) =
        some (boolToStr e) := rfl
    rw [load_fields_eq hD hW hM hE]
    simp [hen, hen2, hen3]

/-- C5 witness: the amended round trip evaluated at a concrete subscription
with all three sub-policies present and enabled. -/
theorem C5_decode_encode_roundtrip_witness :
    VolumeSubscriptionInfo.load_fields_from_dict utcOnly
        (VolumeSubscriptionInfo.dump_flat_str_dict
          { is_enabled := true
            snapshot_policy_daily := some { is_enabled := true, retention_days := 14 }
            snapshot_policy_weekly := some { is_enabled := true, start_day := "monday" }
            snapshot_policy_monthly := some { is_enabled := true, start_date := 31 } }) =
      .ok { is_enabled := true
            snapshot_policy_daily := some { is_enabled := true, retention_days := 14 }
            snapshot_policy_weekly := some { is_enabled := true, start_day := "monday" }
            snapshot_policy_monthly := some { is_enabled := true, start_date := 31 } } :=
  C5_decode_encode_roundtrip utcOnly _
    ⟨fun d hd => by cases hd; exact ⟨rfl, by decide, by decide, by decide, rfl⟩,
     fun w hw => by cases hw; exact ⟨rfl, by decide, by decide, by decide, by decide, rfl⟩,
     fun m hm => by cases hm; exact ⟨rfl, by decide, by decide, by decide, by decide, by decide, rfl⟩⟩

/-! ## Claim C2: retention expiry evaluation -/

/-- C2: for every decoded retention record and instant `now`, `is_expired`
is true exactly when `now >= retention_expiry_time_utc`; in particular it is
true at the boundary instant itself and false one second before. -/
theorem C2_is_expired_boundary (m : SnapshotMetadata) (now : Int) :
    (m.is_expired now = true ↔ now ≥ m.retention_expiry_time) ∧
      m.is_expired m.retention_expiry_time = true ∧
      m.is_expired (m.retention_expiry_time - 1) = false := by
  refine ⟨?_, ?_, ?_⟩ <;> simp [SnapshotMetadata.is_expired]

/-- C2 witness: the expiry evaluation at a concrete record and instant. -/
theorem C2_is_expired_boundary_witness :
    ((SnapshotMetadata.is_expired
        ⟨"true", 100, ⟨100, "UTC"⟩, 7, "time", Frequency.daily⟩ 100 = true ↔
      (100 : Int) ≥ 100) ∧
      SnapshotMetadata.is_expired
        ⟨"true", 100, ⟨100, "UTC"⟩, 7, "time", Frequency.daily⟩ 100 = true ∧
      SnapshotMetadata.is_expired
        ⟨"true", 100, ⟨100, "UTC"⟩, 7, "time", Frequency.daily⟩ (100 - 1) = false) :=
  C2_is_expired_boundary ⟨"true", 100, ⟨100, "UTC"⟩, 7, "time", Frequency.daily⟩ 100

/-! ## Claim C7: the daily due decision -/

/-- C7: for every daily policy and instant `now`, the due decision equals
the comparison of `now` against the computed UTC window start, and `now`
exactly equal to the scheduled UTC time counts as due. -/
theorem C7_daily_due_iff (db : TZDatabase) (p : DailySnapshotSchedule) (now : Int) :
    ((p.is_snapshot_due db now).is_due = true ↔
      now ≥ toInstant db (compute_scheduled_times db p.start_time p.timezone now).1) ∧
    (now = toInstant db (compute_scheduled_times db p.start_time p.timezone now).1 →
      (p.is_snapshot_due db now).is_due = true) := by
  constructor
  · simp [DailySnapshotSchedule.is_snapshot_due, timeframe_validation]
  · intro h
    simp [DailySnapshotSchedule.is_snapshot_due, timeframe_validation]
    omega

/-- C7 witness: a daily 09:00 UTC policy evaluated exactly at the scheduled
instant is due. -/
theorem C7_daily_due_iff_witness :
    (DailySnapshotSchedule.is_snapshot_due utcOnly
      ⟨true, 9 * 3600, "UTC", "time", 7⟩ (mkUTC 2024 1 1 9 0 0)).is_due = true :=
  (C7_daily_due_iff utcOnly ⟨true, 9 * 3600, "UTC", "time", 7⟩
    (mkUTC 2024 1 1 9 0 0)).2 (by decide)

/-! ## Claim C8: retention metadata arithmetic -/

/-- C8: the recorded UTC expiry is the scheduled UTC time advanced by
`retention_days` calendar days (and likewise the zoned form); concretely, a
daily 09:00 UTC policy with `retention_days = 7` evaluated at
2024-01-01T09:00:00Z is due with expiry 2024-01-08T09:00:00Z; and calendar-day
addition is timezone-aware rather than a flat 24-hour multiple (a day added
across an offset change of the toy zone advances the instant by 23 hours). -/
theorem C8_retention_expiry (db : TZDatabase) (frequency : Frequency)
    (schedule : SnapshotSchedule) (retention_days : Int) :
    ((_generate_metadata db frequency schedule retention_days).retention_expiry_time =
        toInstant db (schedule.scheduled_time_utc.addDays retention_days) ∧
      (_generate_metadata db frequency schedule retention_days).retention_expiry_time_zoned =
        schedule.scheduled_time_local.addDays retention_days) ∧
    ((DailySnapshotSchedule.is_snapshot_due utcOnly ⟨true, 9 * 3600, "UTC", "time", 7⟩
        (mkUTC 2024 1 1 9 0 0)).is_due = true ∧
      (_generate_metadata utcOnly Frequency.daily
          (DailySnapshotSchedule.is_snapshot_due utcOnly ⟨true, 9 * 3600, "UTC", "time", 7⟩
            (mkUTC 2024 1 1 9 0 0)) 7).retention_expiry_time =
        mkUTC 2024 1 8 9 0 0) ∧
    (toInstant dstToy ((⟨-3600, "Toyland"⟩ : ZonedDateTime).addDays 1) -
        toInstant dstToy (⟨-3600, "Toyland"⟩ : ZonedDateTime) = 82800) :=
  ⟨⟨rfl, rfl⟩, ⟨by decide, by decide⟩, by decide⟩

/-- C8 witness: the metadata arithmetic theorem applied at the concrete
daily 09:00 UTC scenario. -/
theorem C8_retention_expiry_witness :
    (DailySnapshotSchedule.is_snapshot_due utcOnly ⟨true, 9 * 3600, "UTC", "time", 7⟩
        (mkUTC 2024 1 1 9 0 0)).is_due = true ∧
      (_generate_metadata utcOnly Frequency.daily
          (DailySnapshotSchedule.is_snapshot_due utcOnly ⟨true, 9 * 3600, "UTC", "time", 7⟩
            (mkUTC 2024 1 1 9 0 0)) 7).retention_expiry_time =
        mkUTC 2024 1 8 9 0 0 :=
  (C8_retention_expiry utcOnly Frequency.daily
    ⟨true, ⟨0, "UTC"⟩, ⟨0, "UTC"⟩, 0, none⟩ 7).2.1

/-! ## Claim C3: weekly day-mismatch behaviour -/

/-- C3 (code bug): on a weekly policy whose `start_day` differs from the
current day, `is_snapshot_due` does not return a not-due decision — the
source constructs `SnapshotSchedule(is_due=False, reason=...)` without the
required `scheduled_time_utc` / `scheduled_time_local` fields, which raises
a pydantic `ValidationError` (here the spec's own scenario: `start_day`
monday evaluated on Tuesday 2024-01-02).  On a matching day it does return a
decision. -/
theorem C3_weekly_day_mismatch_raises :
    (WeeklySnapshotSchedule.is_snapshot_due utcOnly
        ⟨true, 0, "monday", "UTC", "time", 30⟩ (mkUTC 2024 1 2 0 0 0) =
      Except.error
        "ValidationError: field required: scheduled_time_utc, scheduled_time_local") ∧
    (∃ s, WeeklySnapshotSchedule.is_snapshot_due utcOnly
        ⟨true, 0, "monday", "UTC", "time", 30⟩ (mkUTC 2024 1 1 0 0 0) = .ok s ∧
      s.is_due = true) :=
  ⟨rfl, ⟨_, rfl, rfl⟩⟩

/-! ## Claim C6: monthly effective-day substitution -/

/-- C6 (code bug): for a monthly policy with `start_date = 31` evaluated in
April 2024 (a 30-day month), the effective due-day is the month's last day
(30): on 2024-04-30 the decision exists and follows the daily time-window
rule (due at 10:00 for a 09:00 policy, not due at 08:00).  But on a
non-matching day the source constructs `SnapshotSchedule` without its
required fields and raises a pydantic `ValidationError` instead of returning
the not-due decision the claim describes. -/
theorem C6_monthly_substitution_and_mismatch_raises :
    (MonthlySnapshotSchedule.is_snapshot_due utcOnly
        ⟨true, 9 * 3600, 31, "UTC", "time", 90⟩ (mkUTC 2024 4 15 12 0 0) =
      Except.error
        "ValidationError: field required: scheduled_time_utc, scheduled_time_local") ∧
    (∃ s, MonthlySnapshotSchedule.is_snapshot_due utcOnly
        ⟨true, 9 * 3600, 31, "UTC", "time", 90⟩ (mkUTC 2024 4 30 10 0 0) = .ok s ∧
      s.is_due = true) ∧
    (∃ s, MonthlySnapshotSchedule.is_snapshot_due utcOnly
        ⟨true, 9 * 3600, 31, "UTC", "time", 90⟩ (mkUTC 2024 4 30 8 0 0) = .ok s ∧
      s.is_due = false) :=
  ⟨rfl, ⟨_, rfl, rfl⟩, ⟨_, rfl, rfl⟩⟩

/-! ## Claim C4: window deduplication -/

theorem windowLoop_iff (db : TZDatabase) (ws we : ZonedDateTime)
    (l : List ManagedSnapshot) :
    windowLoop db ws we l = true ↔
      ∃ s ∈ l, toInstant db ws ≤ toInstant db (_parse_snapshot_time s.created_at) ∧
        toInstant db (_parse_snapshot_time s.created_at) ≤ toInstant db we := by
  induction l with
  | nil => simp [windowLoop]
  | cons s rest ih =>
    by_cases hc : toInstant db ws ≤ toInstant db (_parse_snapshot_time s.created_at) ∧
        toInstant db (_parse_snapshot_time s.created_at) ≤ toInstant db we
    · simp [windowLoop, hc]
    · simp only [windowLoop, if_neg hc, ih, List.mem_cons]
      constructor
      · rintro ⟨x, hx, hw⟩
        exact ⟨x, Or.inr hx, hw⟩
      · rintro ⟨x, hx | hx, hw⟩
        · exact absurd (hx ▸ hw) hc
        · exact ⟨x, hx, hw⟩

/-- C4: the dedup check returns true exactly when some snapshot's creation
timestamp (parsed as UTC) lies within the inclusive window
`[scheduled_time_utc, scheduled_time_utc + period]`, where the period is one
day for daily, seven days for weekly and one calendar month for monthly —
with clamping month arithmetic (Jan 31 2023 + 1 month = Feb 28 2023). -/
theorem C4_window_dedup (db : TZDatabase) (frequency : Frequency)
    (schedule : SnapshotSchedule) (snaps : List ManagedSnapshot) :
    (_snapshot_exists_in_window db frequency schedule snaps = true ↔
      ∃ s ∈ snaps,
        toInstant db schedule.scheduled_time_utc ≤
            toInstant db (_parse_snapshot_time s.created_at) ∧
          toInstant db (_parse_snapshot_time s.created_at) ≤
            toInstant db (window_end frequency schedule.scheduled_time_utc)) ∧
    window_end Frequency.daily schedule.scheduled_time_utc =
      schedule.scheduled_time_utc.addDays 1 ∧
    window_end Frequency.weekly schedule.scheduled_time_utc =
      schedule.scheduled_time_utc.addDays 7 ∧
    window_end Frequency.monthly schedule.scheduled_time_utc =
      schedule.scheduled_time_utc.addOneMonth ∧
    (ZonedDateTime.addOneMonth ⟨daysFromCivil 2023 1 31 * 86400 + 9 * 3600, "UTC"⟩ =
      ⟨daysFromCivil 2023 2 28 * 86400 + 9 * 3600, "UTC"⟩) := by
  refine ⟨?_, rfl, rfl, rfl, by decide⟩
  cases snaps with
  | nil => simp [_snapshot_exists_in_window]
  | cons a l =>
    simpa [_snapshot_exists_in_window] using
      windowLoop_iff db schedule.scheduled_time_utc
        (window_end frequency schedule.scheduled_time_utc) (a :: l)

/-- C4 witness: a snapshot created one hour into the daily window is
detected by the dedup check. -/
theorem C4_window_dedup_witness :
    _snapshot_exists_in_window utcOnly Frequency.daily
      ⟨true, ⟨0, "UTC"⟩, ⟨0, "UTC"⟩, 0, none⟩ [⟨"s1", 3600⟩] = true :=
  (C4_window_dedup utcOnly Frequency.daily
      ⟨true, ⟨0, "UTC"⟩, ⟨0, "UTC"⟩, 0, none⟩ [⟨"s1", 3600⟩]).1.mpr
    ⟨⟨"s1", 3600⟩, by simp, by decide, by decide⟩

/-! ## Claim C1: the per-volume per-class creation decision -/

theorem should_create_eval {db : TZDatabase} {volume : OpenstackVolume}
    {frequency : Frequency} {snaps : List ManagedSnapshot} {now : Int}
    {p : SubPolicy} (hp : _get_policy volume frequency = some p)
    (hen : p.is_enabled = true) :
    should_create_snapshot db volume frequency snaps now =
      if (get_schedule db p now).is_due = false then (false, none)
      else if _snapshot_exists_in_window db frequency (get_schedule db p now) snaps then
        (false, none)
      else (true, some (get_schedule db p now)) := by
  simp [should_create_snapshot, hp, hen]

/-- C1: `should_create_snapshot` returns `(false, none)` when the policy for
the class is absent or disabled; for an enabled policy it returns
`(true, schedule)` exactly when the computed schedule is due and no managed
snapshot already exists in the dedup window, and `(false, none)`
otherwise. -/
theorem C1_should_create_snapshot (db : TZDatabase) (volume : OpenstackVolume)
    (frequency : Frequency) (snaps : List ManagedSnapshot) (now : Int) :
    ((_get_policy volume frequency = none ∨
        ∃ p, _get_policy volume frequency = some p ∧ p.is_enabled = false) →
      should_create_snapshot db volume frequency snaps now = (false, none)) ∧
    (∀ p, _get_policy volume frequency = some p → p.is_enabled = true →
      (should_create_snapshot db volume frequency snaps now =
          (true, some (get_schedule db p now)) ↔
        (get_schedule db p now).is_due = true ∧
          _snapshot_exists_in_window db frequency (get_schedule db p now) snaps = false) ∧
      (¬((get_schedule db p now).is_due = true ∧
          _snapshot_exists_in_window db frequency (get_schedule db p now) snaps = false) →
        should_create_snapshot db volume frequency snaps now = (false, none))) := by
  constructor
  · rintro (h | ⟨p, hp, hen⟩)
    · simp [should_create_snapshot, h]
    · simp [should_create_snapshot, hp, hen]
  · intro p hp hen
    rw [should_create_eval hp hen]
    cases h1 : (get_schedule db p now).is_due <;>
      cases h2 : _snapshot_exists_in_window db frequency (get_schedule db p now) snaps <;>
        simp [h1, h2]

/-- C1 witness: a volume with an enabled daily 09:00 UTC policy, evaluated
at 10:00 with no existing managed snapshots, yields a create decision with
the computed schedule. -/
theorem C1_should_create_snapshot_witness :
    should_create_snapshot utcOnly
        ⟨"v1", none, "available", ⟨true, some ⟨true, 9 * 3600, "UTC", "time", 7⟩, none, none⟩⟩
        Frequency.daily [] (mkUTC 2024 1 1 10 0 0) =
      (true, some (get_schedule utcOnly (.daily ⟨true, 9 * 3600, "UTC", "time", 7⟩)
        (mkUTC 2024 1 1 10 0 0))) :=
  ((C1_should_create_snapshot utcOnly
      ⟨"v1", none, "available", ⟨true, some ⟨true, 9 * 3600, "UTC", "time", 7⟩, none, none⟩⟩
      Frequency.daily [] (mkUTC 2024 1 1 10 0 0)).2
    (.daily ⟨true, 9 * 3600, "UTC", "time", 7⟩) rfl rfl).1.mpr (by decide)

/-! ## Claim C9: decoding defaults and the enabled gate -/

theorem except_bind_ok {ε α β : Type} {x : Except ε α} {f : α → Except ε β} {b : β}
    (h : (x >>= f) = .ok b) : ∃ a, x = .ok a ∧ f a = .ok b := by
  cases x with
  | error e => simp [Bind.bind, Except.bind] at h
  | ok a => exact ⟨a, rfl, by simpa [Bind.bind, Except.bind] using h⟩

theorem decodeBoolField_ok {tags : Tags} {key : String} {dflt b : Bool}
    (h : decodeBoolField tags key dflt = .ok b) :
    (tagLookup (get_alias key) tags = none ∧ b = dflt) ∨
      (∃ s, tagLookup (get_alias key) tags = some s ∧ parseBoolPy s = some b) := by
  unfold decodeBoolField at h
  split at h
  · rename_i hL
    exact Or.inl ⟨hL, (Except.ok.inj h).symm⟩
  · rename_i s hL
    split at h
    · rename_i v hP
      exact Or.inr ⟨s, hL, by rw [hP, Except.ok.inj h]⟩
    · cases h

theorem fromTags_daily_enabled {db : TZDatabase} {tags : Tags}
    {d : DailySnapshotSchedule} (h : DailySnapshotSchedule.fromTags db tags = .ok d) :
    decodeBoolField tags "daily-enabled" false = .ok d.is_enabled := by
  unfold DailySnapshotSchedule.fromTags at h
  obtain ⟨b, hE, h⟩ := except_bind_ok h
  obtain ⟨st, hT, h⟩ := except_bind_ok h
  obtain ⟨tz, hZ, h⟩ := except_bind_ok h
  obtain ⟨rt, hR, h⟩ := except_bind_ok h
  obtain ⟨rd, hD, h⟩ := except_bind_ok h
  have hmk := Except.ok.inj h
  rw [← hmk]
  exact hE

theorem fromTags_weekly_enabled {db : TZDatabase} {tags : Tags}
    {w : WeeklySnapshotSchedule} (h : WeeklySnapshotSchedule.fromTags db tags = .ok w) :
    decodeBoolField tags "weekly-enabled" false = .ok w.is_enabled := by
  unfold WeeklySnapshotSchedule.fromTags at h
  obtain ⟨b, hE, h⟩ := except_bind_ok h
  obtain ⟨st, hT, h⟩ := except_bind_ok h
  obtain ⟨sd, hS, h⟩ := except_bind_ok h
  obtain ⟨tz, hZ, h⟩ := except_bind_ok h
  obtain ⟨rt, hR, h⟩ := except_bind_ok h
  obtain ⟨rd, hD, h⟩ := except_bind_ok h
  have hmk := Except.ok.inj h
  rw [← hmk]
  exact hE

theorem fromTags_monthly_enabled {db : TZDatabase} {tags : Tags}
    {m : MonthlySnapshotSchedule} (h : MonthlySnapshotSchedule.fromTags db tags = .ok m) :
    decodeBoolField tags "monthly-enabled" false = .ok m.is_enabled := by
  unfold MonthlySnapshotSchedule.fromTags at h
  obtain ⟨b, hE, h⟩ := except_bind_ok h
  obtain ⟨st, hT, h⟩ := except_bind_ok h
  obtain ⟨sd, hS, h⟩ := except_bind_ok h
  obtain ⟨tz, hZ, h⟩ := except_bind_ok h
  obtain ⟨rt, hR, h⟩ := except_bind_ok h
  obtain ⟨rd, hD, h⟩ := except_bind_ok h
  have hmk := Except.ok.inj h
  rw [← hmk]
  exact hE

theorem load_ok_shape {db : TZDatabase} {tags : Tags} {info : VolumeSubscriptionInfo}
    (h : VolumeSubscriptionInfo.load_fields_from_dict db tags = .ok info) :
    ∃ d w m e,
      DailySnapshotSchedule.fromTags db tags = .ok d ∧
      WeeklySnapshotSchedule.fromTags db tags = .ok w ∧
      MonthlySnapshotSchedule.fromTags db tags = .ok m ∧
      decodeBoolField tags "snapsentry-managed" false = .ok e ∧
      info = ⟨e, if d.is_enabled then some d else none,
        if w.is_enabled then some w else none,
        if m.is_enabled then some m else none⟩ := by
  unfold VolumeSubscriptionInfo.load_fields_from_dict at h
  obtain ⟨d, hd, h⟩ := except_bind_ok h
  obtain ⟨w, hw, h⟩ := except_bind_ok h
  obtain ⟨m, hm, h⟩ := except_bind_ok h
  obtain ⟨e, he, h⟩ := except_bind_ok h
  exact ⟨d, w, m, e, hd, hw, hm, he, (Except.ok.inj h).symm⟩

/-- C9 counterexample: a sub-policy decodes as subscribed for the enabled
tag `"1"`, which is not the string `"true"`; and a malformed boolean such as
`"banana"` raises a `ValidationError` instead of decoding to false. -/
theorem C9_enabled_tag_not_only_true :
    (∃ info, VolumeSubscriptionInfo.load_fields_from_dict utcOnly
        [(get_alias "daily-enabled", "1")] = .ok info ∧
      info.snapshot_policy_daily.isSome = true) ∧
    VolumeSubscriptionInfo.load_fields_from_dict utcOnly
        [(get_alias "daily-enabled", "banana")] =
      .error "ValidationError: invalid boolean for daily-enabled" :=
  ⟨⟨_, rfl, rfl⟩, rfl⟩

/-- C9 (amended): decoding yields each sub-policy as subscribed only if its
enabled tag parses as a pydantic truthy boolean string (`"true"`, `"t"`,
`"yes"`, `"y"`, `"on"`, `"1"`, case-insensitive); an absent boolean decodes
to false while a malformed one raises a validation error; missing
non-boolean fields fall back to the documented defaults (start_time 23:29,
timezone UTC, retention_days 7 daily / 30 weekly / 90 monthly), and a volume
with no tags at all decodes to not-subscribed without raising an error. -/
theorem C9_decode_defaults (db : TZDatabase) (tags : Tags) :
    (∀ info, VolumeSubscriptionInfo.load_fields_from_dict db tags = .ok info →
      ((tagLookup (get_alias "daily-enabled") tags = none →
          info.snapshot_policy_daily = none) ∧
        (∀ d, info.snapshot_policy_daily = some d →
          ∃ s, tagLookup (get_alias "daily-enabled") tags = some s ∧
            parseBoolPy s = some true)) ∧
      ((tagLookup (get_alias "weekly-enabled") tags = none →
          info.snapshot_policy_weekly = none) ∧
        (∀ w, info.snapshot_policy_weekly = some w →
          ∃ s, tagLookup (get_alias "weekly-enabled") tags = some s ∧
            parseBoolPy s = some true)) ∧
      ((tagLookup (get_alias "monthly-enabled") tags = none →
          info.snapshot_policy_monthly = none) ∧
        (∀ m, info.snapshot_policy_monthly = some m →
          ∃ s, tagLookup (get_alias "monthly-enabled") tags = some s ∧
            parseBoolPy s = some true))) ∧
    (VolumeSubscriptionInfo.load_fields_from_dict db [] =
      .ok { is_enabled := false, snapshot_policy_daily := none,
            snapshot_policy_weekly := none, snapshot_policy_monthly := none }) ∧
    (VolumeSubscriptionInfo.load_fields_from_dict db
        [(get_alias "daily-enabled", "true"), (get_alias "weekly-enabled", "true"),
          (get_alias "monthly-enabled", "true")] =
      .ok { is_enabled := false,
            snapshot_policy_daily := some
              { is_enabled := true, start_time := 23 * 3600 + 29 * 60,
                timezone := "UTC", retention_type := "time", retention_days := 7 },
            snapshot_policy_weekly := some
              { is_enabled := true, start_time := 23 * 3600 + 29 * 60,
                start_day := "sunday", timezone := "UTC", retention_type := "time",
                retention_days := 30 },
            snapshot_policy_monthly := some
              { is_enabled := true, start_time := 23 * 3600 + 29 * 60,
                start_date := 1, timezone := "UTC", retention_type := "time",
                retention_days := 90 } }) := by
  refine ⟨?_, rfl, rfl⟩
  intro info h
  obtain ⟨d0, w0, m0, e0, hd, hw, hm, he, hinfo⟩ := load_ok_shape h
  subst hinfo
  refine ⟨⟨?_, ?_⟩, ⟨?_, ?_⟩, ⟨?_, ?_⟩⟩
  · intro habs
    rcases decodeBoolField_ok (fromTags_daily_enabled hd) with ⟨_, hb⟩ | ⟨s, hs, _⟩
    · simp [hb]
    · rw [habs] at hs
      cases hs
  · intro d hd'
    by_cases hb : d0.is_enabled = true
    · rcases decodeBoolField_ok (fromTags_daily_enabled hd) with ⟨_, hfalse⟩ | ⟨s, hs, hp⟩
      · rw [hb] at hfalse
        cases hfalse
      · exact ⟨s, hs, by rw [hp, hb]⟩
    · simp [hb] at hd'
  · intro habs
    rcases decodeBoolField_ok (fromTags_weekly_enabled hw) with ⟨_, hb⟩ | ⟨s, hs, _⟩
    · simp [hb]
    · rw [habs] at hs
      cases hs
  · intro w hw'
    by_cases hb : w0.is_enabled = true
    · rcases decodeBoolField_ok (fromTags_weekly_enabled hw) with ⟨_, hfalse⟩ | ⟨s, hs, hp⟩
      · rw [hb] at hfalse
        cases hfalse
      · exact ⟨s, hs, by rw [hp, hb]⟩
    · simp [hb] at hw'
  · intro habs
    rcases decodeBoolField_ok (fromTags_monthly_enabled hm) with ⟨_, hb⟩ | ⟨s, hs, _⟩
    · simp [hb]
    · rw [habs] at hs
      cases hs
  · intro m hm'
    by_cases hb : m0.is_enabled = true
    · rcases decodeBoolField_ok (fromTags_monthly_enabled hm) with ⟨_, hfalse⟩ | ⟨s, hs, hp⟩
      · rw [hb] at hfalse
        cases hfalse
      · exact ⟨s, hs, by rw [hp, hb]⟩
    · simp [hb] at hm'

/-- C9 witness: the decode-defaults theorem applied to the concrete tag
mapping that enables the daily class with the truthy spelling `"1"`. -/
theorem C9_decode_defaults_witness :
    ∃ s, tagLookup (get_alias "daily-enabled")
        [(get_alias "daily-enabled", "1")] = some s ∧ parseBoolPy s = some true :=
  ((C9_decode_defaults utcOnly [(get_alias "daily-enabled", "1")]).1
      { is_enabled := false,
        snapshot_policy_daily := some { is_enabled := true },
        snapshot_policy_weekly := none,
        snapshot_policy_monthly := none } rfl).1.2 { is_enabled := true } rfl

/-! ## Claim C10: compensation on metadata-injection failure -/

/-- C10: whenever metadata injection onto a created snapshot fails, the
creation workflow attempts to delete the orphaned snapshot and reports the
whole operation as failed by raising `SnapshotCreationError`. -/
theorem C10_inject_failure_compensates (db : TZDatabase) (env : CloudEnv)
    (volume_id : String) (frequency : Frequency) (schedule : SnapshotSchedule)
    (retention_days : Int) (snapshot_id : String) (e : String)
    (hc : env.createSnapshot = .ok snapshot_id)
    (hi : env.injectMetadata snapshot_id = .error e) :
    (∃ msg, (create_snapshot_with_metadata db env volume_id frequency schedule
        retention_days).1 = .error (.snapshotCreationError msg)) ∧
    CloudAction.deleteAttempt snapshot_id ∈
      (create_snapshot_with_metadata db env volume_id frequency schedule
        retention_days).2 := by
  have key : create_snapshot_with_metadata db env volume_id frequency schedule
      retention_days =
      (.error (.snapshotCreationError
          ("Failed to inject metadata for snapshot " ++ snapshot_id ++ ": " ++ e)),
        [.createAttempt, .created snapshot_id, .injectAttempt snapshot_id] ++
          _clean_up_snapshot env snapshot_id) := by
    unfold create_snapshot_with_metadata
    split
    · rename_i e' heq
      rw [hc] at heq
      cases heq
    · rename_i sid heq
      rw [hc] at heq
      obtain rfl := (Except.ok.inj heq).symm
      split
      · rename_i u heq2
        rw [hi] at heq2
        cases heq2
      · rename_i e2 heq2
        rw [hi] at heq2
        obtain rfl := (Except.error.inj heq2).symm
        rfl
  rw [key]
  refine ⟨⟨_, rfl⟩, ?_⟩
  unfold _clean_up_snapshot
  cases env.deleteSnapshot snapshot_id <;> simp

/-- C10 witness: the compensation theorem at a concrete environment whose
metadata injection fails. -/
theorem C10_inject_failure_compensates_witness :
    (∃ msg, (create_snapshot_with_metadata utcOnly
        ⟨.ok "snap-1", fun _ => .error "boom", fun _ => .ok ()⟩
        "v1" Frequency.daily ⟨true, ⟨0, "UTC"⟩, ⟨0, "UTC"⟩, 0, none⟩ 7).1 =
      .error (.snapshotCreationError msg)) ∧
    CloudAction.deleteAttempt "snap-1" ∈
      (create_snapshot_with_metadata utcOnly
        ⟨.ok "snap-1", fun _ => .error "boom", fun _ => .ok ()⟩
        "v1" Frequency.daily ⟨true, ⟨0, "UTC"⟩, ⟨0, "UTC"⟩, 0, none⟩ 7).2 :=
  C10_inject_failure_compensates utcOnly
    ⟨.ok "snap-1", fun _ => .error "boom", fun _ => .ok ()⟩
    "v1" Frequency.daily ⟨true, ⟨0, "UTC"⟩, ⟨0, "UTC"⟩, 0, none⟩ 7 "snap-1" "boom"
    rfl rfl

end SnapSentry
